import Mathlib

/-!
Verification of the rusty-bybit authenticated request pipeline.

The development shallowly embeds the core of the library:
`src/auth.rs` (HMAC-SHA256 signature generation) and `src/client.rs`
(request construction, auth headers, envelope decoding).  Machine
integers are modelled as `Nat`/`Int` with explicit `% 2^32` where the
SHA-256 compression wraps; strings are treated as their UTF-8 byte
sequences.  Effectful collaborators (the system clock, the JSON
serializer of the `serde_json` crate, the network transport and the
response parser) are passed as explicit function parameters.
-/

/-! ## Bytes and UTF-8 -/

/-- 2^32, the modulus for the 32-bit words of SHA-256. -/
def w32 : Nat := 4294967296

/-- UTF-8 encoding of a single character (as byte values < 256). -/
def utf8Char (c : Char) : List Nat :=
  let n := c.toNat
  if n < 128 then [n]
  else if n < 2048 then [192 + n / 64, 128 + n % 64]
  else if n < 65536 then [224 + n / 4096, 128 + n / 64 % 64, 128 + n % 64]
  else [240 + n / 262144, 128 + n / 4096 % 64, 128 + n / 64 % 64, 128 + n % 64]

/-- UTF-8 bytes of a string, the view Rust's `str::as_bytes` exposes. -/
def utf8Bytes (s : String) : List Nat :=
  s.data.flatMap utf8Char

/-- Big-endian byte serialization of `x` on `n` bytes. -/
def toBytesBE : Nat → Nat → List Nat
  | 0, _ => []
  | n + 1, x => toBytesBE n (x / 256) ++ [x % 256]

/-! ## SHA-256 (FIPS 180-4), as computed by the sha2 crate -/

/-- Right rotation of a 32-bit word. -/
def rotr (n x : Nat) : Nat :=
  ((x >>> n) ||| (x <<< (32 - n))) % w32

def bigSigma0 (x : Nat) : Nat := rotr 2 x ^^^ rotr 13 x ^^^ rotr 22 x
def bigSigma1 (x : Nat) : Nat := rotr 6 x ^^^ rotr 11 x ^^^ rotr 25 x
def smallSigma0 (x : Nat) : Nat := rotr 7 x ^^^ rotr 18 x ^^^ (x >>> 3)
def smallSigma1 (x : Nat) : Nat := rotr 17 x ^^^ rotr 19 x ^^^ (x >>> 10)

/-- SHA-256 choice function; complement is xor with the all-ones word. -/
def chFn (e f g : Nat) : Nat := (e &&& f) ^^^ ((e ^^^ 4294967295) &&& g)

def majFn (a b c : Nat) : Nat := (a &&& b) ^^^ (a &&& c) ^^^ (b &&& c)

/-- Round-constant table of SHA-256, written in decimal (fractional parts
of the cube roots of the first 64 primes, per the standard). -/
def sha256K : List Nat :=
  [1116352408, 1899447441, 3049323471, 3921009573, 961987163, 1508970993,
   2453635748, 2870763221, 3624381080, 310598401, 607225278, 1426881987,
   1925078388, 2162078206, 2614888103, 3248222580, 3835390401, 4022224774,
   264347078, 604807628, 770255983, 1249150122, 1555081692, 1996064986,
   2554220882, 2821834349, 2952996808, 3210313671, 3336571891, 3584528711,
   113926993, 338241895, 666307205, 773529912, 1294757372, 1396182291,
   1695183700, 1986661051, 2177026350, 2456956037, 2730485921, 2820302411,
   3259730800, 3345764771, 3516065817, 3600352804, 4094571909, 275423344,
   430227734, 506948616, 659060556, 883997877, 958139571, 1322822218,
   1537002063, 1747873779, 1955562222, 2024104815, 2227730452, 2361852424,
   2428436474, 2756734187, 3204031479, 3329325298]

/-- The eight 32-bit working variables of SHA-256. -/
structure Sha256State where
  a : Nat
  b : Nat
  c : Nat
  d : Nat
  e : Nat
  f : Nat
  g : Nat
  h : Nat

/-- Initial SHA-256 hash state, in decimal (fractional parts of the
square roots of the first 8 primes, per the standard). -/
def initHash : Sha256State :=
  ⟨1779033703, 3144134277, 1013904242, 2773480762,
   1359893119, 2600822924, 528734635, 1541459225⟩

/-- Assemble big-endian 32-bit words from a byte list. -/
def wordsOfBytes : List Nat → List Nat
  | b0 :: b1 :: b2 :: b3 :: rest => (((b0 * 256 + b1) * 256 + b2) * 256 + b3) :: wordsOfBytes rest
  | _ => []

/-- One extension step of the SHA-256 message schedule. -/
def scheduleStep (w : Array Nat) : Array Nat :=
  let i := w.size
  w.push ((smallSigma1 (w.getD (i - 2) 0) + w.getD (i - 7) 0 +
           smallSigma0 (w.getD (i - 15) 0) + w.getD (i - 16) 0) % w32)

/-- The 64-entry message schedule of one block. -/
def schedule (ws : List Nat) : Array Nat :=
  (List.range 48).foldl (fun w _ => scheduleStep w) ws.toArray

/-- One SHA-256 compression round. -/
def compressStep (s : Sha256State) (wk : Nat × Nat) : Sha256State :=
  let t1 := (s.h + bigSigma1 s.e + chFn s.e s.f s.g + wk.2 + wk.1) % w32
  let t2 := (bigSigma0 s.a + majFn s.a s.b s.c) % w32
  ⟨(t1 + t2) % w32, s.a, s.b, s.c, (s.d + t1) % w32, s.e, s.f, s.g⟩

/-- Process one 64-byte block. -/
def processBlock (st : Sha256State) (block : List Nat) : Sha256State :=
  let w := schedule (wordsOfBytes block)
  let r := (w.toList.zip sha256K).foldl compressStep st
  ⟨(st.a + r.a) % w32, (st.b + r.b) % w32, (st.c + r.c) % w32, (st.d + r.d) % w32,
   (st.e + r.e) % w32, (st.f + r.f) % w32, (st.g + r.g) % w32, (st.h + r.h) % w32⟩

/-- SHA-256 padding: 0x80, zeros to 56 mod 64, then the bit length on 8 bytes. -/
def padMessage (msg : List Nat) : List Nat :=
  let len := msg.length
  msg ++ [128] ++ List.replicate ((119 - len % 64) % 64) 0 ++ toBytesBE 8 (len * 8)

/-- Split a byte list into 64-byte chunks; the fuel bounds the number of
chunks and is always instantiated with the list length, which suffices
because every step consumes 64 bytes. -/
def chunks64Fuel : Nat → List Nat → List (List Nat)
  | 0, _ => []
  | fuel + 1, l => if l.length = 0 then [] else l.take 64 :: chunks64Fuel fuel (l.drop 64)

/-- Split a byte list into 64-byte chunks. -/
def chunks64 (l : List Nat) : List (List Nat) :=
  chunks64Fuel l.length l

/-- Serialize the final hash state to the 32-byte digest. -/
def stateBytes (st : Sha256State) : List Nat :=
  toBytesBE 4 st.a ++ toBytesBE 4 st.b ++ toBytesBE 4 st.c ++ toBytesBE 4 st.d ++
  toBytesBE 4 st.e ++ toBytesBE 4 st.f ++ toBytesBE 4 st.g ++ toBytesBE 4 st.h

/-- SHA-256 digest of a byte sequence. -/
def sha256 (msg : List Nat) : List Nat :=
  stateBytes ((chunks64 (padMessage msg)).foldl processBlock initHash)

/-- HMAC-SHA256 (RFC 2104): keys longer than the 64-byte block are hashed,
then zero-padded; ipad is 0x36, opad is 0x5c. -/
def hmacSha256 (key msg : List Nat) : List Nat :=
  let k0 := if key.length > 64 then sha256 key else key
  let kp := k0 ++ List.replicate (64 - k0.length) 0
  sha256 ((kp.map (fun b => b ^^^ 92)) ++ sha256 ((kp.map (fun b => b ^^^ 54)) ++ msg))

/-- The two lowercase hex characters of one byte, as produced by hex::encode. -/
def hexPair (b : Nat) : List Char :=
  [Nat.digitChar (b / 16), Nat.digitChar (b % 16)]

/-- Lowercase hex encoding of a byte sequence (hex::encode). -/
def hexEncode (bs : List Nat) : String :=
  String.mk (bs.flatMap hexPair)

/-- Decides whether a character is a lowercase hexadecimal digit. -/
def isLowerHexDigit (c : Char) : Bool :=
  (decide (48 ≤ c.toNat) && decide (c.toNat ≤ 57)) ||
  (decide (97 ≤ c.toNat) && decide (c.toNat ≤ 102))

/-! ## src/auth.rs -/

/-- Credentials, from src/auth.rs. -/
structure Credentials where
  api_key : String
  api_secret : String

/-- generate_signature, from src/auth.rs: sign the concatenation
`format!("{}{}{}{}", timestamp, api_key, recv_window, payload)` with
HMAC-SHA256 keyed by `secret`, hex-encoded lowercase. -/
def generate_signature (timestamp : Int) (api_key : String) (recv_window : Nat)
    (payload : String) (secret : String) : String :=
  let sign_str := toString timestamp ++ api_key ++ toString recv_window ++ payload
  hexEncode (hmacSha256 (utf8Bytes secret) (utf8Bytes sign_str))

/-- The key-construction step of the signer.  Models the hmac crate's
`HmacSha256::new_from_slice`, whose implementation for HMAC accepts keying
material of any length and therefore never returns its `InvalidLength`
error; the `Result` shape is kept so the `.expect("Invalid key length")`
branch of src/auth.rs line 54 can be examined. -/
def hmac_new_from_slice (key : List Nat) : Except String (List Nat) :=
  Except.ok key

/-- generate_signature with the fallibility of the key-construction step
made explicit instead of discharged by `.expect`. -/
def generate_signature_checked (timestamp : Int) (api_key : String) (recv_window : Nat)
    (payload : String) (secret : String) : Except String String :=
  match hmac_new_from_slice (utf8Bytes secret) with
  | Except.error e => Except.error e
  | Except.ok key =>
      Except.ok (hexEncode (hmacSha256 key
        (utf8Bytes (toString timestamp ++ api_key ++ toString recv_window ++ payload))))

/-! ## src/error.rs and src/types.rs -/

/-- BybitError, from src/error.rs.  Wrapped foreign error values are
represented by their display strings. -/
inductive BybitError where
  | RequestError (msg : String)
  | ApiError (ret_code : Int) (ret_msg : String)
  | InvalidTimestamp (msg : String)
  | SerializationError (msg : String)
  | InvalidParameter (msg : String)
  | AuthenticationError (msg : String)
  | RateLimitExceeded (limit_type : String) (limit_reset_ms : Option Nat)
  | InvalidEnumValue (enum_name : String) (value : String)
  | MissingRequiredField (field_name : String)
deriving DecidableEq

/-- JSON values (serde_json::Value); numbers are restricted to integers,
which is all the pipeline model needs. -/
inductive Json where
  | null : Json
  | bool (b : Bool) : Json
  | num (n : Int) : Json
  | str (s : String) : Json
  | arr (elems : List Json) : Json
  | obj (fields : List (String × Json)) : Json

/-- ApiResponse, from src/types.rs: the response envelope. -/
structure ApiResponse (T : Type) where
  ret_code : Int
  ret_msg : String
  result : T
  ret_ext_info : Json
  time : Int

/-! ## src/client.rs -/

/-- The reqwest HTTP transport handle; it has no state observable by the
pipeline model. -/
structure HttpClient where

/-- BybitClient, from src/client.rs. -/
structure BybitClient where
  base_url : String
  http_client : HttpClient
  credentials : Option Credentials

def BybitClient.new (base_url : String) : BybitClient :=
  ⟨base_url, ⟨⟩, none⟩

def BybitClient.with_credentials (c : BybitClient) (api_key api_secret : String) : BybitClient :=
  ⟨c.base_url, c.http_client, some ⟨api_key, api_secret⟩⟩

def BybitClient.testnet : BybitClient :=
  BybitClient.new "https://api-testnet.bybit.com"

def BybitClient.mainnet : BybitClient :=
  BybitClient.new "https://api.bybit.com"

/-- RECV_WINDOW, from src/client.rs line 29. -/
def RECV_WINDOW : Nat := 5000

/-- HTTP methods; the source only distinguishes GET, POST and a catch-all. -/
inductive Method where
  | GET : Method
  | POST : Method
  | other (verb : String) : Method

/-- Validity of one byte of a header value, per the http crate:
visible bytes and spaces (no DEL) plus horizontal tab. -/
def isValidHeaderByte (b : Nat) : Bool :=
  (decide (32 ≤ b) && decide (b ≠ 127)) || decide (b = 9)

/-- Validity of a header value string, per `HeaderValue::try_from`. -/
def isValidHeaderValue (s : String) : Bool :=
  (utf8Bytes s).all isValidHeaderByte

/-- `HeaderValue::try_from(..).map_err(|e| BybitError::InvalidParameter(e.to_string()))`:
the http crate's error displays as "failed to parse header value". -/
def tryHeaderValue (s : String) : Except BybitError String :=
  if isValidHeaderValue s then Except.ok s
  else Except.error (BybitError.InvalidParameter "failed to parse header value")

/-- Hex digit in uppercase, as used by percent-encoding. -/
def upperHexDigit (n : Nat) : Char :=
  if n < 10 then Char.ofNat (48 + n) else Char.ofNat (55 + n)

/-- Bytes kept verbatim by application/x-www-form-urlencoded serialization:
ASCII alphanumerics and `*`, `-`, `.`, `_`. -/
def isFormUnreservedByte (b : Nat) : Bool :=
  (decide (48 ≤ b) && decide (b ≤ 57)) || (decide (65 ≤ b) && decide (b ≤ 90)) ||
  (decide (97 ≤ b) && decide (b ≤ 122)) ||
  decide (b = 42) || decide (b = 45) || decide (b = 46) || decide (b = 95)

/-- Form-urlencoding of one byte: space becomes `+`, unreserved bytes are
kept, everything else is percent-encoded. -/
def formEncodeByte (b : Nat) : List Char :=
  if b = 32 then ['+']
  else if isFormUnreservedByte b then [Char.ofNat b]
  else ['%', upperHexDigit (b / 16), upperHexDigit (b % 16)]

/-- Form-urlencoding of a string's UTF-8 bytes. -/
def formEncode (s : String) : String :=
  String.mk ((utf8Bytes s).flatMap formEncodeByte)

/-- serde_urlencoded::to_string on a sequence of string pairs, in order. -/
def urlencodedToString (q : List (String × String)) : String :=
  String.intercalate "&" (q.map (fun p => formEncode p.1 ++ "=" ++ formEncode p.2))

/-- The signing payload selected in build_auth_headers (src/client.rs
lines 131-147): urlencoded query for GET, serialized JSON body for POST,
empty string otherwise.  `jser` is the serde_json::to_string serializer. -/
def signPayload (jser : Json → String) (method : Method)
    (query : Option (List (String × String))) (body : Option Json) : String :=
  match method with
  | Method.GET => match query with
    | some q => urlencodedToString q
    | none => ""
  | Method.POST => match body with
    | some b => jser b
    | none => ""
  | Method.other _ => ""

/-- build_auth_headers, from src/client.rs lines 121-181.  The clock value
(`get_current_timestamp_ms`) is passed in as `timestamp`.  Each header
value conversion propagates its failure exactly as the `?` operator does. -/
def build_auth_headers (jser : Json → String) (timestamp : Int) (method : Method)
    (query : Option (List (String × String))) (body : Option Json)
    (credentials : Credentials) : Except BybitError (List (String × String)) :=
  let payload := signPayload jser method query body
  let signature := generate_signature timestamp credentials.api_key RECV_WINDOW
      payload credentials.api_secret
  match tryHeaderValue credentials.api_key with
  | Except.error e => Except.error e
  | Except.ok kv =>
    match tryHeaderValue (toString timestamp) with
    | Except.error e => Except.error e
    | Except.ok tv =>
      match tryHeaderValue signature with
      | Except.error e => Except.error e
      | Except.ok sv =>
        match tryHeaderValue (toString RECV_WINDOW) with
        | Except.error e => Except.error e
        | Except.ok rv =>
          Except.ok [("X-BAPI-API-KEY", kv), ("X-BAPI-TIMESTAMP", tv),
                     ("X-BAPI-SIGN", sv), ("X-BAPI-RECV-WINDOW", rv),
                     ("Content-Type", "application/json")]

/-- The outbound request assembled by `request` before dispatch: URL,
attached query string, header map and serialized body. -/
structure RequestData where
  url : String
  queryString : Option String
  headers : List (String × String)
  body : Option String
deriving DecidableEq

/-- The request-construction phase of `request` (src/client.rs lines
71-86): URL concatenation, query attachment, auth headers when
credentials are held (propagating their failure), body serialization. -/
def buildRequest (jser : Json → String) (timestamp : Int) (client : BybitClient)
    (method : Method) (path : String) (query : Option (List (String × String)))
    (body : Option Json) : Except BybitError RequestData :=
  let url := client.base_url ++ path
  let queryString := query.map urlencodedToString
  match client.credentials with
  | none => Except.ok ⟨url, queryString, [], body.map jser⟩
  | some creds =>
    match build_auth_headers jser timestamp method query body creds with
    | Except.error e => Except.error e
    | Except.ok headers => Except.ok ⟨url, queryString, headers, body.map jser⟩

/-- The envelope decode of `request` (src/client.rs lines 91-100):
`serde_json::from_str(..)?`, then the ret_code check.  `parsed` is the
outcome of the serde_json parse of the response text. -/
def decodeResponse {T : Type} (parsed : Except String (ApiResponse T)) :
    Except BybitError T :=
  match parsed with
  | Except.error e => Except.error (BybitError.SerializationError e)
  | Except.ok r =>
      if r.ret_code != 0 then
        Except.error (BybitError.ApiError r.ret_code r.ret_msg)
      else
        Except.ok r.result

/-- request, from src/client.rs lines 64-101, with its collaborators as
parameters: `jser` the JSON serializer, `timestamp` the clock value,
`send` the network transport, `parse` the serde_json envelope parse for
the expected result type.  The first component lists the requests that
reached the network (empty when construction failed before dispatch). -/
def request {T : Type} (jser : Json → String) (timestamp : Int)
    (send : RequestData → String) (parse : String → Except String (ApiResponse T))
    (client : BybitClient) (method : Method) (path : String)
    (query : Option (List (String × String))) (body : Option Json) :
    List RequestData × Except BybitError T :=
  match buildRequest jser timestamp client method path query body with
  | Except.error e => ([], Except.error e)
  | Except.ok req => ([req], decodeResponse (parse (send req)))

/-! ## serde_json parse model

The decode step of `request` (src/client.rs line 91) calls
`serde_json::from_str::<ApiResponse<T>>` in one step: the `result` field
is deserialized as `T` while the envelope is read, before the ret_code
check.  To settle claims about concrete envelope texts this section
models that external collaborator: a small executable JSON parser
(integers only, which is all the envelope grammar needs) and the
serde-derived deserializers of the repository's envelope and of a result
shape with required fields. -/

/-- Tokens of the JSON grammar, for the model of serde_json's parser. -/
inductive JTok where
  | lbrace : JTok
  | rbrace : JTok
  | lbrack : JTok
  | rbrack : JTok
  | colon : JTok
  | comma : JTok
  | jstr (s : String) : JTok
  | jnum (n : Int) : JTok
  | jtrue : JTok
  | jfalse : JTok
  | jnull : JTok

/-- Reads a JSON string body up to its closing quote, handling the
common escapes. -/
def parseStringTok : List Char → List Char → Option (String × List Char)
  | acc, '"' :: rest => some (String.mk acc.reverse, rest)
  | acc, '\\' :: c :: rest =>
    if c = '"' ∨ c = '\\' ∨ c = '/' then parseStringTok (c :: acc) rest
    else if c = 'n' then parseStringTok ('\n' :: acc) rest
    else if c = 't' then parseStringTok ('\t' :: acc) rest
    else if c = 'r' then parseStringTok ('\r' :: acc) rest
    else none
  | acc, c :: rest => parseStringTok (c :: acc) rest
  | _, [] => none

/-- Accumulates a decimal integer literal. -/
def parseDigitsAux : Nat → List Char → Nat × List Char
  | acc, c :: rest =>
    if c.isDigit then parseDigitsAux (acc * 10 + (c.toNat - 48)) rest else (acc, c :: rest)
  | acc, [] => (acc, [])

/-- JSON tokenizer; the fuel is instantiated with the character count,
which suffices because every step consumes at least one character. -/
def tokenizeFuel : Nat → List Char → Option (List JTok)
  | 0, cs => if cs.isEmpty then some [] else none
  | _ + 1, [] => some []
  | fuel + 1, c :: rest =>
    if c = ' ' ∨ c = '\n' ∨ c = '\t' ∨ c = '\r' then tokenizeFuel fuel rest
    else if c = Char.ofNat 123 then (tokenizeFuel fuel rest).map (fun ts => JTok.lbrace :: ts)
    else if c = Char.ofNat 125 then (tokenizeFuel fuel rest).map (fun ts => JTok.rbrace :: ts)
    else if c = '[' then (tokenizeFuel fuel rest).map (fun ts => JTok.lbrack :: ts)
    else if c = ']' then (tokenizeFuel fuel rest).map (fun ts => JTok.rbrack :: ts)
    else if c = ':' then (tokenizeFuel fuel rest).map (fun ts => JTok.colon :: ts)
    else if c = ',' then (tokenizeFuel fuel rest).map (fun ts => JTok.comma :: ts)
    else if c = '"' then
      match parseStringTok [] rest with
      | none => none
      | some (s, rest2) => (tokenizeFuel fuel rest2).map (fun ts => JTok.jstr s :: ts)
    else if c = '-' then
      match rest with
      | d :: rest2 =>
        if d.isDigit then
          let p := parseDigitsAux (d.toNat - 48) rest2
          (tokenizeFuel fuel p.2).map (fun ts => JTok.jnum (-(p.1 : Int)) :: ts)
        else none
      | [] => none
    else if c.isDigit then
      let p := parseDigitsAux (c.toNat - 48) rest
      (tokenizeFuel fuel p.2).map (fun ts => JTok.jnum (p.1 : Int) :: ts)
    else if c = 't' then
      match rest with
      | 'r' :: 'u' :: 'e' :: rest2 => (tokenizeFuel fuel rest2).map (fun ts => JTok.jtrue :: ts)
      | _ => none
    else if c = 'f' then
      match rest with
      | 'a' :: 'l' :: 's' :: 'e' :: rest2 => (tokenizeFuel fuel rest2).map (fun ts => JTok.jfalse :: ts)
      | _ => none
    else if c = 'n' then
      match rest with
      | 'u' :: 'l' :: 'l' :: rest2 => (tokenizeFuel fuel rest2).map (fun ts => JTok.jnull :: ts)
      | _ => none
    else none

/-- Tokenize a JSON text. -/
def tokenize (s : String) : Option (List JTok) :=
  tokenizeFuel (s.data.length + 1) s.data

/-- Parse one JSON value from a token stream.  A container's remaining
members are parsed by re-entering with its opening token, so the
recursion is structural on the fuel, which the caller sizes generously
from the token count. -/
def parseVal : Nat → List JTok → Option (Json × List JTok)
  | 0, _ => none
  | fuel + 1, ts =>
    match ts with
    | JTok.jstr s :: rest => some (Json.str s, rest)
    | JTok.jnum n :: rest => some (Json.num n, rest)
    | JTok.jtrue :: rest => some (Json.bool true, rest)
    | JTok.jfalse :: rest => some (Json.bool false, rest)
    | JTok.jnull :: rest => some (Json.null, rest)
    | JTok.lbrack :: JTok.rbrack :: rest => some (Json.arr [], rest)
    | JTok.lbrack :: rest =>
      match parseVal fuel rest with
      | none => none
      | some (v, rest2) =>
        match rest2 with
        | JTok.comma :: rest3 =>
          match parseVal fuel (JTok.lbrack :: rest3) with
          | some (Json.arr elems, rest4) => some (Json.arr (v :: elems), rest4)
          | _ => none
        | JTok.rbrack :: rest3 => some (Json.arr [v], rest3)
        | _ => none
    | JTok.lbrace :: JTok.rbrace :: rest => some (Json.obj [], rest)
    | JTok.lbrace :: JTok.jstr k :: JTok.colon :: rest =>
      match parseVal fuel rest with
      | none => none
      | some (v, rest2) =>
        match rest2 with
        | JTok.comma :: rest3 =>
          match parseVal fuel (JTok.lbrace :: rest3) with
          | some (Json.obj fields, rest4) => some (Json.obj ((k, v) :: fields), rest4)
          | _ => none
        | JTok.rbrace :: rest3 => some (Json.obj [(k, v)], rest3)
        | _ => none
    | _ => none

/-- Models serde_json's text-to-value parsing: tokenize, parse one value,
require the input to be exhausted. -/
def parseJson (s : String) : Except String Json :=
  match tokenize s with
  | none => Except.error "invalid json"
  | some ts =>
    match parseVal (2 * ts.length + 2) ts with
    | some (j, []) => Except.ok j
    | some _ => Except.error "trailing characters"
    | none => Except.error "invalid json"

/-- First binding of a key in a JSON object's field list. -/
def jsonField (fields : List (String × Json)) (key : String) : Option Json :=
  (fields.find? (fun p => p.1 == key)).map Prod.snd

/-- ServerTime, from src/types.rs lines 17-23: both fields are required
strings, renamed timeSecond and timeNano on the wire. -/
structure ServerTime where
  time_second : String
  time_nano : String
deriving DecidableEq

/-- Models the serde-derived Deserialize for ServerTime: both renamed
fields are required, so an empty result object is a missing-field error. -/
def serverTimeFromJson : Json → Except String ServerTime :=
  fun j =>
    match j with
    | Json.obj fields =>
      match jsonField fields "timeSecond" with
      | some (Json.str ts) =>
        match jsonField fields "timeNano" with
        | some (Json.str tn) => Except.ok ⟨ts, tn⟩
        | some _ => Except.error "invalid type timeNano"
        | none => Except.error "missing field timeNano"
      | some _ => Except.error "invalid type timeSecond"
      | none => Except.error "missing field timeSecond"
    | _ => Except.error "invalid type ServerTime"

/-- Models Deserialize for serde_json::Value: any JSON value
deserializes to itself. -/
def valueFromJson : Json → Except String Json := fun j => Except.ok j

/-- Models the serde-derived Deserialize for ApiResponse (src/types.rs
lines 43-53) given the result type's deserializer: retCode, retMsg,
result and time are required, result is deserialized as T while the
envelope is read, and retExtInfo falls back to its serde default. -/
def apiResponseFromJson {T : Type} (dT : Json → Except String T) (j : Json) :
    Except String (ApiResponse T) :=
  match j with
  | Json.obj fields =>
    match jsonField fields "retCode" with
    | some (Json.num code) =>
      match jsonField fields "retMsg" with
      | some (Json.str msg) =>
        match jsonField fields "result" with
        | some jr =>
          match dT jr with
          | Except.error e => Except.error e
          | Except.ok res =>
            match jsonField fields "time" with
            | some (Json.num t) =>
              Except.ok ⟨code, msg, res, (jsonField fields "retExtInfo").getD Json.null, t⟩
            | some _ => Except.error "invalid type time"
            | none => Except.error "missing field time"
        | none => Except.error "missing field result"
      | some _ => Except.error "invalid type retMsg"
      | none => Except.error "missing field retMsg"
    | _ => Except.error "invalid type retCode"
  | _ => Except.error "invalid type ApiResponse"

/-- Models serde_json::from_str for ApiResponse: parse the text, then
deserialize the envelope with the given result deserializer. -/
def parseApiResponse {T : Type} (dT : Json → Except String T) (s : String) :
    Except String (ApiResponse T) :=
  match parseJson s with
  | Except.error e => Except.error e
  | Except.ok j => apiResponseFromJson dT j

/-! ## Concrete fixtures used by witnesses -/

/-- A sample serializer: every JSON value prints as the empty object. -/
def jserW : Json → String := fun _ => "\x7b\x7d"

/-- A sample transport returning an empty response body. -/
def sendW : RequestData → String := fun _ => ""

/-- A sample envelope parse that always fails. -/
def parseFailW : String → Except String (ApiResponse Json) :=
  fun _ => Except.error "expected value"

/-- A testnet client with sample credentials. -/
def clientW : BybitClient := (BybitClient.testnet).with_credentials "key" "secret"

/-- A testnet client whose API key cannot be a header value (newline). -/
def clientBadW : BybitClient := (BybitClient.testnet).with_credentials "bad\nkey" "secret"

/-- The rate-limit envelope text from the spec's concrete scenario. -/
def rateLimitText : String :=
  "\x7b\"retCode\":10006,\"retMsg\":\"rate limit\",\"result\":\x7b\x7d,\"retExtInfo\":\x7b\x7d,\"time\":0\x7d"

/-- The four signing header names. -/
def authHeaderNames : List String :=
  ["X-BAPI-API-KEY", "X-BAPI-TIMESTAMP", "X-BAPI-SIGN", "X-BAPI-RECV-WINDOW"]

/-- All four signing headers are present. -/
def hasAllAuthHeaders (hs : List (String × String)) : Bool :=
  authHeaderNames.all (fun n => (hs.map Prod.fst).contains n)

/-- At least one signing header is present. -/
def hasAnyAuthHeader (hs : List (String × String)) : Bool :=
  authHeaderNames.any (fun n => (hs.map Prod.fst).contains n)

/-- Recognizes the InvalidParameter error variant. -/
def isInvalidParameterError {T : Type} (r : Except BybitError T) : Bool :=
  match r with
  | Except.error (BybitError.InvalidParameter _) => true
  | _ => false

/-- The field list the JSON parse of `rateLimitText` yields, in text
order. -/
def rateLimitFields : List (String × Json) :=
  [("retCode", Json.num 10006), ("retMsg", Json.str "rate limit"), ("result", Json.obj []),
   ("retExtInfo", Json.obj []), ("time", Json.num 0)]

/-- The JSON value of the rate-limit envelope text. -/
def rateLimitJson : Json := Json.obj rateLimitFields

/-- A sample POST body. -/
def bodyW : Json := Json.obj []

/-- The auth headers of a GET call with no query at timestamp 0 under
clientW, signature precomputed. -/
def headersGetW : List (String × String) :=
  [("X-BAPI-API-KEY", "key"), ("X-BAPI-TIMESTAMP", "0"),
   ("X-BAPI-SIGN", "b252e04281d678fa13333aa1f5f76aefa7d89651c75fa5e60169aa92076e3d8f"),
   ("X-BAPI-RECV-WINDOW", "5000"), ("Content-Type", "application/json")]

/-- The built request of a GET call with no query at timestamp 0 under clientW. -/
def reqGetW : RequestData :=
  ⟨"https://api-testnet.bybit.com/v5/market/time", none, headersGetW, none⟩

/-- The built request of a POST call with body `bodyW` at timestamp 0 under
clientW, signature precomputed over the serialized body. -/
def reqPostW : RequestData :=
  ⟨"https://api-testnet.bybit.com/v5/order/create", none,
   [("X-BAPI-API-KEY", "key"), ("X-BAPI-TIMESTAMP", "0"),
    ("X-BAPI-SIGN", "ad70c98cbc1352728487c1b2834f7ed9f8d0d9788b7e7cb793eec3a22d337130"),
    ("X-BAPI-RECV-WINDOW", "5000"), ("Content-Type", "application/json")],
   some "\x7b\x7d"⟩

/-- A sample ordered query. -/
def qW : List (String × String) :=
  [("category", "option"), ("symbol", "BTC-29JUL22-25000-C")]

/-- The built request of a GET call with query `qW` at timestamp 0 under
clientW, signature precomputed over the urlencoded query. -/
def reqGetQueryW : RequestData :=
  ⟨"https://api-testnet.bybit.com/v5/market/tickers",
   some "category=option&symbol=BTC-29JUL22-25000-C",
   [("X-BAPI-API-KEY", "key"), ("X-BAPI-TIMESTAMP", "0"),
    ("X-BAPI-SIGN", "5f582e90e940d63e5fbd89d009507137f97173e3744bafe917c6de716413d530"),
    ("X-BAPI-RECV-WINDOW", "5000"), ("Content-Type", "application/json")],
   none⟩

/-! ## Digest format lemmas -/

theorem toBytesBE_length (n x : Nat) : (toBytesBE n x).length = n := by
  induction n generalizing x with
  | zero => rfl
  | succ n ih => simp [toBytesBE, ih]

theorem toBytesBE_lt (n x : Nat) : ∀ b ∈ toBytesBE n x, b < 256 := by
  induction n generalizing x with
  | zero => intro b hb; simp [toBytesBE] at hb
  | succ n ih =>
    intro b hb
    simp only [toBytesBE, List.mem_append, List.mem_singleton] at hb
    rcases hb with hb | hb
    · exact ih (x / 256) b hb
    · subst hb; exact Nat.mod_lt _ (by norm_num)

theorem stateBytes_length (st : Sha256State) : (stateBytes st).length = 32 := by
  simp [stateBytes, toBytesBE_length]

theorem stateBytes_lt (st : Sha256State) : ∀ b ∈ stateBytes st, b < 256 := by
  intro b hb
  simp only [stateBytes, List.mem_append, or_assoc] at hb
  rcases hb with h | h | h | h | h | h | h | h <;> exact toBytesBE_lt _ _ b h

theorem sha256_length (m : List Nat) : (sha256 m).length = 32 :=
  stateBytes_length _

theorem sha256_lt (m : List Nat) : ∀ b ∈ sha256 m, b < 256 :=
  stateBytes_lt _

theorem hmacSha256_length (k m : List Nat) : (hmacSha256 k m).length = 32 := by
  unfold hmacSha256; exact sha256_length _

theorem hmacSha256_lt (k m : List Nat) : ∀ b ∈ hmacSha256 k m, b < 256 := by
  unfold hmacSha256; exact sha256_lt _

theorem digitChar_lower : ∀ n < 16, isLowerHexDigit (Nat.digitChar n) = true := by
  decide

theorem hexChars_length (bs : List Nat) : (bs.flatMap hexPair).length = 2 * bs.length := by
  induction bs with
  | nil => rfl
  | cons b t ih =>
    simp only [List.flatMap_cons, List.length_append, ih, hexPair,
      List.length_cons, List.length_nil]
    omega

theorem hexEncode_length (bs : List Nat) : (hexEncode bs).length = 2 * bs.length :=
  hexChars_length bs

theorem hexChars_all_lower (bs : List Nat) (h : ∀ b ∈ bs, b < 256) :
    (bs.flatMap hexPair).all isLowerHexDigit = true := by
  induction bs with
  | nil => rfl
  | cons b t ih =>
    have hb : b < 256 := h b (List.mem_cons_self b t)
    have h1 : b / 16 < 16 := by omega
    have h2 : b % 16 < 16 := by omega
    simp only [List.flatMap_cons, List.all_append, hexPair, List.all_cons, List.all_nil,
      digitChar_lower _ h1, digitChar_lower _ h2, Bool.and_true, Bool.true_and]
    exact ih (fun b hb => h b (List.mem_cons_of_mem _ hb))

theorem hexEncode_all_lower (bs : List Nat) (h : ∀ b ∈ bs, b < 256) :
    (hexEncode bs).data.all isLowerHexDigit = true :=
  hexChars_all_lower bs h

/-! ## Claim theorems -/

/-- C1: for every timestamp, api_key, recv_window, payload and secret,
generate_signature returns the lowercase-hex encoding of the HMAC-SHA256,
keyed by secret, of the concatenation (no separators) of the decimal
timestamp, the api_key, the decimal recv_window and the payload; the
result is always exactly 64 lowercase hexadecimal characters. -/
theorem generate_signature_is_hex_hmac_and_64_lower (timestamp : Int) (api_key : String)
    (recv_window : Nat) (payload secret : String) :
    generate_signature timestamp api_key recv_window payload secret
      = hexEncode (hmacSha256 (utf8Bytes secret)
          (utf8Bytes (toString timestamp ++ api_key ++ toString recv_window ++ payload)))
    ∧ (generate_signature timestamp api_key recv_window payload secret).length = 64
    ∧ (generate_signature timestamp api_key recv_window payload secret).data.all
        isLowerHexDigit = true := by
  refine ⟨rfl, ?_, ?_⟩
  · show (hexEncode (hmacSha256 (utf8Bytes secret)
        (utf8Bytes (toString timestamp ++ api_key ++ toString recv_window ++ payload)))).length = 64
    rw [hexEncode_length, hmacSha256_length]
  · show (hexEncode (hmacSha256 (utf8Bytes secret)
        (utf8Bytes (toString timestamp ++ api_key ++ toString recv_window ++ payload)))).data.all
        isLowerHexDigit = true
    exact hexEncode_all_lower _ (hmacSha256_lt _ _)

/-- C9: the key-construction step of the signer succeeds for every secret
(HMAC-SHA256 accepts keys of any length), so the "Invalid key length"
branch is unreachable and generate_signature never fails. -/
theorem generate_signature_never_fails (timestamp : Int) (api_key : String)
    (recv_window : Nat) (payload secret : String) :
    hmac_new_from_slice (utf8Bytes secret) = Except.ok (utf8Bytes secret)
    ∧ generate_signature_checked timestamp api_key recv_window payload secret
      = Except.ok (generate_signature timestamp api_key recv_window payload secret) :=
  ⟨rfl, rfl⟩

/-- C10: with_credentials sets exactly the credentials field (to the given
key/secret pair) and leaves base_url and the transport handle unchanged;
clients built by new, testnet and mainnet hold no credentials. -/
theorem with_credentials_frame (c : BybitClient) (k s u : String) :
    (c.with_credentials k s).credentials = some ⟨k, s⟩
    ∧ (c.with_credentials k s).base_url = c.base_url
    ∧ (c.with_credentials k s).http_client = c.http_client
    ∧ (BybitClient.new u).credentials = none
    ∧ BybitClient.testnet.credentials = none
    ∧ BybitClient.mainnet.credentials = none :=
  ⟨rfl, rfl, rfl, rfl, rfl, rfl⟩

/-! ## Pipeline lemmas -/

theorem tryHeaderValue_ok {s v : String} (h : tryHeaderValue s = Except.ok v) : v = s := by
  unfold tryHeaderValue at h
  split at h
  · injection h with h; exact h.symm
  · exact Except.noConfusion h

theorem build_auth_headers_ok_eq {jser : Json → String} {ts : Int} {method : Method}
    {query : Option (List (String × String))} {body : Option Json} {creds : Credentials}
    {hs : List (String × String)}
    (h : build_auth_headers jser ts method query body creds = Except.ok hs) :
    hs = [("X-BAPI-API-KEY", creds.api_key),
          ("X-BAPI-TIMESTAMP", toString ts),
          ("X-BAPI-SIGN", generate_signature ts creds.api_key RECV_WINDOW
              (signPayload jser method query body) creds.api_secret),
          ("X-BAPI-RECV-WINDOW", toString RECV_WINDOW),
          ("Content-Type", "application/json")] := by
  cases hv1 : isValidHeaderValue creds.api_key <;>
  cases hv2 : isValidHeaderValue (toString ts) <;>
  cases hv3 : isValidHeaderValue (generate_signature ts creds.api_key RECV_WINDOW
      (signPayload jser method query body) creds.api_secret) <;>
  cases hv4 : isValidHeaderValue (toString RECV_WINDOW) <;>
  simp [build_auth_headers, tryHeaderValue, hv1, hv2, hv3, hv4] at h <;>
  exact h.symm

theorem build_auth_headers_invalid {jser : Json → String} {ts : Int} {method : Method}
    {query : Option (List (String × String))} {body : Option Json} {creds : Credentials}
    (hinv : isValidHeaderValue creds.api_key = false
          ∨ isValidHeaderValue (toString ts) = false
          ∨ isValidHeaderValue (generate_signature ts creds.api_key RECV_WINDOW
              (signPayload jser method query body) creds.api_secret) = false
          ∨ isValidHeaderValue (toString RECV_WINDOW) = false) :
    build_auth_headers jser ts method query body creds
      = Except.error (BybitError.InvalidParameter "failed to parse header value") := by
  rcases hinv with h1 | h2 | h3 | h4
  · simp [build_auth_headers, tryHeaderValue, h1]
  · cases hv1 : isValidHeaderValue creds.api_key <;>
      simp [build_auth_headers, tryHeaderValue, hv1, h2]
  · cases hv1 : isValidHeaderValue creds.api_key <;>
    cases hv2 : isValidHeaderValue (toString ts) <;>
      simp [build_auth_headers, tryHeaderValue, hv1, hv2, h3]
  · cases hv1 : isValidHeaderValue creds.api_key <;>
    cases hv2 : isValidHeaderValue (toString ts) <;>
    cases hv3 : isValidHeaderValue (generate_signature ts creds.api_key RECV_WINDOW
        (signPayload jser method query body) creds.api_secret) <;>
      simp [build_auth_headers, tryHeaderValue, hv1, hv2, hv3, h4]

/-- C2: the decode step has exactly three outcomes: a parse failure is
returned as SerializationError; a parsed envelope with ret_code not zero
is returned as ApiError carrying that envelope's ret_code and ret_msg
verbatim and never a result; a parsed envelope with ret_code zero returns
its result field. -/
theorem decode_envelope_outcomes {T : Type} (parse : String → Except String (ApiResponse T))
    (text : String) :
    (∀ e, parse text = Except.error e →
        decodeResponse (parse text) = Except.error (BybitError.SerializationError e))
    ∧ (∀ r, parse text = Except.ok r → r.ret_code ≠ 0 →
        decodeResponse (parse text) = Except.error (BybitError.ApiError r.ret_code r.ret_msg))
    ∧ (∀ r, parse text = Except.ok r → r.ret_code = 0 →
        decodeResponse (parse text) = Except.ok r.result) := by
  refine ⟨?_, ?_, ?_⟩
  · intro e he; rw [he]; rfl
  · intro r hr hne; rw [hr]; simp [decodeResponse, bne_iff_ne, hne]
  · intro r hr h0; rw [hr]; simp [decodeResponse, h0]

/-- C2 witness: a failing parse decodes to SerializationError. -/
theorem decode_envelope_outcomes_witness :
    decodeResponse (parseFailW "bad") = Except.error (BybitError.SerializationError "expected value") :=
  (decode_envelope_outcomes parseFailW "bad").1 "expected value" rfl

set_option maxRecDepth 10000 in
/-- C7 counterexample: with expected result type ServerTime, whose
deserializer requires timeSecond and timeNano, decoding the rate-limit
envelope text returns SerializationError — not the ApiError the claim
asserts for every result type — because the one-step decode of
src/client.rs line 91 deserializes the empty `result` object as the
result type before the ret_code check. -/
theorem decode_rate_limit_server_time_counterexample :
    decodeResponse (parseApiResponse serverTimeFromJson rateLimitText)
      = Except.error (BybitError.SerializationError "missing field timeSecond")
    ∧ decodeResponse (parseApiResponse serverTimeFromJson rateLimitText)
      ≠ Except.error (BybitError.ApiError 10006 "rate limit") := by
  have h1 : decodeResponse (parseApiResponse serverTimeFromJson rateLimitText)
      = Except.error (BybitError.SerializationError "missing field timeSecond") := by rfl
  exact ⟨h1, by rw [h1]; intro h; exact BybitError.noConfusion (Except.error.inj h)⟩

set_option maxRecDepth 10000 in
/-- C7 (amended): for every expected result type whose deserializer
accepts the empty object — such as serde_json::Value — decoding the
rate-limit envelope text yields an ApiError carrying ret_code 10006 and
ret_msg "rate limit" verbatim and never yields a result; result types
with required fields instead fail the one-step envelope parse with
SerializationError. -/
theorem decode_rate_limit_envelope_typed {T : Type} (dT : Json → Except String T) (v : T)
    (hd : dT (Json.obj []) = Except.ok v) :
    decodeResponse (parseApiResponse dT rateLimitText)
      = Except.error (BybitError.ApiError 10006 "rate limit") := by
  have hj : parseJson rateLimitText = Except.ok rateLimitJson := by rfl
  have e1 : jsonField rateLimitFields "retCode" = some (Json.num 10006) := by rfl
  have e2 : jsonField rateLimitFields "retMsg" = some (Json.str "rate limit") := by rfl
  have e3 : jsonField rateLimitFields "result" = some (Json.obj []) := by rfl
  have e4 : jsonField rateLimitFields "retExtInfo" = some (Json.obj []) := by rfl
  have e5 : jsonField rateLimitFields "time" = some (Json.num 0) := by rfl
  simp only [parseApiResponse, hj, rateLimitJson, apiResponseFromJson,
    e1, e2, e3, hd, e4, e5, Option.getD_some]
  rfl

/-- C7 witness: with serde_json::Value as the expected result type the
decode of the rate-limit envelope yields the ApiError. -/
theorem decode_rate_limit_envelope_typed_witness :
    decodeResponse (parseApiResponse valueFromJson rateLimitText)
      = Except.error (BybitError.ApiError 10006 "rate limit") :=
  decode_rate_limit_envelope_typed valueFromJson (Json.obj []) rfl

/-- C3: a built request carries the signing headers if and only if the
client holds credentials: without credentials no signing header (indeed
no header at all) is attached, with credentials all four are. -/
theorem request_auth_gating (jser : Json → String) (ts : Int) (client : BybitClient)
    (method : Method) (path : String) (query : Option (List (String × String)))
    (body : Option Json) (req : RequestData)
    (h : buildRequest jser ts client method path query body = Except.ok req) :
    hasAnyAuthHeader req.headers = client.credentials.isSome
    ∧ hasAllAuthHeaders req.headers = client.credentials.isSome := by
  cases hc : client.credentials with
  | none =>
    simp only [buildRequest, hc, Except.ok.injEq] at h
    subst h
    exact ⟨rfl, rfl⟩
  | some creds =>
    simp only [buildRequest, hc] at h
    cases hb : build_auth_headers jser ts method query body creds with
    | error e => rw [hb] at h; exact Except.noConfusion h
    | ok headers =>
      rw [hb] at h
      simp only [Except.ok.injEq] at h
      subst h
      rw [build_auth_headers_ok_eq hb]
      exact ⟨rfl, rfl⟩

/-- C4: for a POST call with a body issued with credentials, the
transmitted body bytes are the serialization of the body value, the
signing payload is that same serialization, and the signature header was
computed over it. -/
theorem post_body_bytes_equal_signed_payload (jser : Json → String) (ts : Int)
    (client : BybitClient) (path : String) (query : Option (List (String × String)))
    (b : Json) (creds : Credentials) (req : RequestData)
    (hc : client.credentials = some creds)
    (h : buildRequest jser ts client Method.POST path query (some b) = Except.ok req) :
    req.body = some (jser b)
    ∧ signPayload jser Method.POST query (some b) = jser b
    ∧ ("X-BAPI-SIGN", generate_signature ts creds.api_key RECV_WINDOW (jser b)
        creds.api_secret) ∈ req.headers := by
  simp only [buildRequest, hc] at h
  cases hb : build_auth_headers jser ts Method.POST query (some b) creds with
  | error e => rw [hb] at h; exact Except.noConfusion h
  | ok headers =>
    rw [hb] at h
    simp only [Except.ok.injEq] at h
    subst h
    refine ⟨rfl, rfl, ?_⟩
    rw [build_auth_headers_ok_eq hb]
    have hsp : signPayload jser Method.POST query (some b) = jser b := rfl
    rw [hsp]
    exact List.mem_cons_of_mem _ (List.mem_cons_of_mem _ (List.mem_cons_self _ _))

/-- C5: on every successful auth-header construction, the timestamp
header holds the decimal rendering of the same timestamp fed to the
signer, the receive-window header holds the rendering of RECV_WINDOW,
RECV_WINDOW is the constant 5000, and the signature was computed with
that timestamp and RECV_WINDOW. -/
theorem auth_headers_timestamp_recv_window (jser : Json → String) (ts : Int)
    (method : Method) (query : Option (List (String × String))) (body : Option Json)
    (creds : Credentials) (hs : List (String × String))
    (h : build_auth_headers jser ts method query body creds = Except.ok hs) :
    ("X-BAPI-TIMESTAMP", toString ts) ∈ hs
    ∧ ("X-BAPI-RECV-WINDOW", toString RECV_WINDOW) ∈ hs
    ∧ RECV_WINDOW = 5000
    ∧ ("X-BAPI-SIGN", generate_signature ts creds.api_key RECV_WINDOW
        (signPayload jser method query body) creds.api_secret) ∈ hs := by
  rw [build_auth_headers_ok_eq h]
  refine ⟨?_, ?_, rfl, ?_⟩
  · exact List.mem_cons_of_mem _ (List.mem_cons_self _ _)
  · exact List.mem_cons_of_mem _ (List.mem_cons_of_mem _ (List.mem_cons_of_mem _
      (List.mem_cons_self _ _)))
  · exact List.mem_cons_of_mem _ (List.mem_cons_of_mem _ (List.mem_cons_self _ _))

/-- C6: for an authenticated GET call the signed payload is the
urlencoded rendering of the query pairs in caller order, which is also
exactly the query string attached to the URL; with no query the signed
payload is empty and no query string is attached. -/
theorem get_payload_is_urlencoded_query (jser : Json → String) (ts : Int)
    (client : BybitClient) (path : String) (query : Option (List (String × String)))
    (body : Option Json) (creds : Credentials) (req : RequestData)
    (hc : client.credentials = some creds)
    (h : buildRequest jser ts client Method.GET path query body = Except.ok req) :
    (∀ q, query = some q →
        req.queryString = some (urlencodedToString q)
        ∧ ("X-BAPI-SIGN", generate_signature ts creds.api_key RECV_WINDOW
            (urlencodedToString q) creds.api_secret) ∈ req.headers
        ∧ urlencodedToString q
            = String.intercalate "&" (q.map (fun p => formEncode p.1 ++ "=" ++ formEncode p.2)))
    ∧ (query = none →
        req.queryString = none
        ∧ ("X-BAPI-SIGN", generate_signature ts creds.api_key RECV_WINDOW
            "" creds.api_secret) ∈ req.headers) := by
  simp only [buildRequest, hc] at h
  cases hb : build_auth_headers jser ts Method.GET query body creds with
  | error e => rw [hb] at h; exact Except.noConfusion h
  | ok headers =>
    rw [hb] at h
    simp only [Except.ok.injEq] at h
    subst h
    constructor
    · intro q hq
      subst hq
      refine ⟨rfl, ?_, rfl⟩
      rw [build_auth_headers_ok_eq hb]
      have hsp : signPayload jser Method.GET (some q) body = urlencodedToString q := rfl
      rw [hsp]
      exact List.mem_cons_of_mem _ (List.mem_cons_of_mem _ (List.mem_cons_self _ _))
    · intro hq
      subst hq
      refine ⟨rfl, ?_⟩
      rw [build_auth_headers_ok_eq hb]
      have hsp : signPayload jser Method.GET none body = "" := rfl
      rw [hsp]
      exact List.mem_cons_of_mem _ (List.mem_cons_of_mem _ (List.mem_cons_self _ _))

/-- C8: when one of the four header values (API key, timestamp, signature,
receive-window) cannot be encoded as a header value, the pipeline returns
InvalidParameter and no request reaches the network. -/
theorem request_invalid_header_no_dispatch {T : Type} (jser : Json → String) (ts : Int)
    (send : RequestData → String) (parse : String → Except String (ApiResponse T))
    (client : BybitClient) (method : Method) (path : String)
    (query : Option (List (String × String))) (body : Option Json) (creds : Credentials)
    (hc : client.credentials = some creds)
    (hinv : isValidHeaderValue creds.api_key = false
          ∨ isValidHeaderValue (toString ts) = false
          ∨ isValidHeaderValue (generate_signature ts creds.api_key RECV_WINDOW
              (signPayload jser method query body) creds.api_secret) = false
          ∨ isValidHeaderValue (toString RECV_WINDOW) = false) :
    request jser ts send parse client method path query body
      = ([], Except.error (BybitError.InvalidParameter "failed to parse header value")) := by
  simp [request, buildRequest, hc, build_auth_headers_invalid hinv]

set_option maxRecDepth 10000 in
/-- C3 witness: a credentialed GET build carries all four signing headers. -/
theorem request_auth_gating_witness :
    hasAnyAuthHeader reqGetW.headers = clientW.credentials.isSome
    ∧ hasAllAuthHeaders reqGetW.headers = clientW.credentials.isSome :=
  request_auth_gating jserW 0 clientW Method.GET "/v5/market/time" none none reqGetW (by rfl)

set_option maxRecDepth 10000 in
/-- C4 witness: concrete POST build, body and signed payload coincide. -/
theorem post_body_bytes_equal_signed_payload_witness :
    reqPostW.body = some (jserW bodyW)
    ∧ signPayload jserW Method.POST none (some bodyW) = jserW bodyW
    ∧ ("X-BAPI-SIGN", generate_signature 0 "key" RECV_WINDOW (jserW bodyW) "secret")
        ∈ reqPostW.headers :=
  post_body_bytes_equal_signed_payload jserW 0 clientW "/v5/order/create" none bodyW
    ⟨"key", "secret"⟩ reqPostW rfl (by rfl)

set_option maxRecDepth 10000 in
/-- C5 witness: concrete auth headers hold the timestamp and the 5000
receive window. -/
theorem auth_headers_timestamp_recv_window_witness :
    ("X-BAPI-TIMESTAMP", toString (0 : Int)) ∈ headersGetW
    ∧ ("X-BAPI-RECV-WINDOW", toString RECV_WINDOW) ∈ headersGetW
    ∧ RECV_WINDOW = 5000
    ∧ ("X-BAPI-SIGN", generate_signature 0 "key" RECV_WINDOW
        (signPayload jserW Method.GET none none) "secret") ∈ headersGetW :=
  auth_headers_timestamp_recv_window jserW 0 Method.GET none none ⟨"key", "secret"⟩
    headersGetW (by rfl)

set_option maxRecDepth 10000 in
/-- C6 witness: concrete GET build with a two-pair query. -/
theorem get_payload_is_urlencoded_query_witness :
    reqGetQueryW.queryString = some (urlencodedToString qW)
    ∧ ("X-BAPI-SIGN", generate_signature 0 "key" RECV_WINDOW (urlencodedToString qW) "secret")
        ∈ reqGetQueryW.headers
    ∧ urlencodedToString qW
        = String.intercalate "&" (qW.map (fun p => formEncode p.1 ++ "=" ++ formEncode p.2)) :=
  (get_payload_is_urlencoded_query jserW 0 clientW "/v5/market/tickers" (some qW) none
    ⟨"key", "secret"⟩ reqGetQueryW rfl (by rfl)).1 qW rfl

/-- C8 witness: an API key containing a newline aborts the call before
dispatch with InvalidParameter. -/
theorem request_invalid_header_no_dispatch_witness :
    request jserW 0 sendW parseFailW clientBadW Method.GET "/v5/market/time" none none
      = ([], Except.error (BybitError.InvalidParameter "failed to parse header value")) :=
  request_invalid_header_no_dispatch jserW 0 sendW parseFailW clientBadW Method.GET
    "/v5/market/time" none none ⟨"bad\nkey", "secret"⟩ rfl (Or.inl (by decide))
